import Mathlib

/-!
Verification of the match-synchronization and action-gating engine of the
Hololive card-game simulator frontend.

The embedding below is a shallow translation of the client logic:
- `GameRoomScreen` (hand actions, bloom targeting, the global action gate,
  turn-usage derivation, end-turn / concede handling, decision selection),
- `App.tsx` (the `withReauth` session guard and the WebSocket `onmessage`
  handler feeding the state store).

JavaScript strings are modelled by Lean `String`; the JS `toUpperCase` /
`trim` operations used by the source are embedded as executable functions
over the character list (ASCII case mapping, which is all the source relies
on).  Nullable JS values are modelled by `Option`, JS numbers occurring as
ids and counters by `Int`.
-/

namespace HoloClient

/-- Embedding of JavaScript `String.prototype.toUpperCase` for a single
character (ASCII range, which covers every string the client compares). -/
def jsToUpperChar (c : Char) : Char :=
  if c.isLower then Char.ofNat (c.toNat - 32) else c

/-- Embedding of JavaScript `String.prototype.toUpperCase`. -/
def jsToUpper (s : String) : String :=
  ⟨s.data.map jsToUpperChar⟩

/-- Embedding of JavaScript `String.prototype.trim`. -/
def jsTrim (s : String) : String :=
  ⟨((s.data.dropWhile Char.isWhitespace).reverse.dropWhile Char.isWhitespace).reverse⟩

/-- A card instance (`ZoneCardInstance` in the current `services/api.ts`,
embedded in `src/vite.config.ts`).  Of its fields the verified logic reads
only the stable instance id, the template id and the owning zone; the
positional, ownership and battle-attribute fields are omitted. -/
structure ZoneCardInstance where
  cardInstanceId : Int
  cardId : String
  zone : String
  deriving DecidableEq, Repr

/-- Card-catalog decoration for a template id (`CardVisualExt` in
`GameRoomScreen`): display name, card type, optional rank tier. -/
structure CardVisualExt where
  name : String
  cardType : String
  levelType : Option String
  deriving DecidableEq, Repr

/-- A board zone (`BoardZoneState` in the current `services/api.ts`,
embedded in `src/vite.config.ts`): zone name and its ordered card list; the
`slotIndex` field is not read by the verified logic and is omitted. -/
structure BoardZoneState where
  zone : String
  cards : List ZoneCardInstance
  deriving DecidableEq, Repr

/-- Per-player snapshot state (`PlayerZoneState` in the current
`services/api.ts`, embedded in `src/vite.config.ts`).  Kept fields are the
ones the verified logic reads: user id, hand cards, board zones and the
cheer-deck count; the remaining zone counters are omitted. -/
structure PlayerZoneState where
  userId : Int
  handCards : List ZoneCardInstance
  boardZones : List BoardZoneState
  cheerDeckCount : Int
  deriving DecidableEq, Repr

/-- A recent-action log entry (`RecentMatchAction` in the current
`services/api.ts`, embedded in `src/vite.config.ts`): actor id, action
kind and turn number — the fields the turn-usage derivation reads; action
id, intra-turn order, payload and timestamp are omitted. -/
structure RecentMatchAction where
  userId : Int
  actionType : String
  turnNumber : Int
  deriving DecidableEq, Repr

/-- A pending decision (`PendingDecision` in the current `services/api.ts`,
embedded in `src/vite.config.ts`): id, effect kind and min/max selectable
counts — the fields the verified logic reads; the source/candidate metadata
fields are omitted. -/
structure PendingDecision where
  decisionId : Int
  effectType : String
  minSelect : Int
  maxSelect : Int
  deriving DecidableEq, Repr

/-- A pending interaction (`PendingInteraction` in the current
`services/api.ts`, embedded in `src/vite.config.ts`): id, interaction kind
and min/max selectable counts; the source, title/message and card fields
are omitted as the verified logic does not read them. -/
structure PendingInteraction where
  interactionId : Int
  interactionType : String
  minSelect : Int
  maxSelect : Int
  deriving DecidableEq, Repr

/-- The game snapshot (`GameState` in the current `services/api.ts`,
embedded in `src/vite.config.ts`), with both interrupt queues and the
recent-action log.  Kept fields are those the verified logic reads; match
id, room code, phase and the snapshot's own turn-owner field are omitted
(`GameRoomScreen` takes turn ownership from the match summary). -/
structure GameState where
  status : String
  turnNumber : Int
  players : List PlayerZoneState
  pendingDecisions : List PendingDecision
  pendingInteractions : List PendingInteraction
  recentActions : List RecentMatchAction
  deriving DecidableEq, Repr

/-- MatchSummary (`LobbyMatch` in `services/api.ts`): lifecycle status and
active turn owner, the two fields the verified logic reads. -/
structure LobbyMatch where
  status : String
  currentTurnPlayerId : Option Int
  deriving DecidableEq, Repr

/-- The inputs of `GameRoomScreen` that its action logic depends on: the
current match, the optional snapshot, the local player id, the single
in-flight-request flag, and the lazily fetched card-catalog cache. -/
structure GameRoomInput where
  currentMatch : LobbyMatch
  currentGameState : Option GameState
  currentUserId : Option Int
  busy : Bool
  cardInfoById : String → Option CardVisualExt

/-- GameRoomScreen: `isMyTurn` — the local player id is non-null and equals
the match's current turn owner. -/
def isMyTurn (p : GameRoomInput) : Bool :=
  p.currentUserId.isSome && p.currentMatch.currentTurnPlayerId == p.currentUserId

/-- GameRoomScreen: `myState` — the snapshot entry of the local player. -/
def myState (p : GameRoomInput) : Option PlayerZoneState :=
  match p.currentGameState with
  | none => none
  | some gs => gs.players.find? (fun pl => some pl.userId == p.currentUserId)

/-- GameRoomScreen: `myBoardZones`. -/
def myBoardZones (p : GameRoomInput) : List BoardZoneState :=
  ((myState p).map (fun st => st.boardZones)).getD []

/-- GameRoomScreen: `myHolomems` — cards in the CENTER, COLLAB and BACK
zones of the local player. -/
def myHolomems (p : GameRoomInput) : List ZoneCardInstance :=
  ((myBoardZones p).filter
    (fun z => z.zone == "CENTER" || z.zone == "COLLAB" || z.zone == "BACK")).flatMap
    (fun z => z.cards)

/-- GameRoomScreen: `myCenterHolomems`. -/
def myCenterHolomems (p : GameRoomInput) : List ZoneCardInstance :=
  (((myBoardZones p).find? (fun z => z.zone == "CENTER")).map (fun z => z.cards)).getD []

/-- GameRoomScreen: `myCollabHolomems`. -/
def myCollabHolomems (p : GameRoomInput) : List ZoneCardInstance :=
  (((myBoardZones p).find? (fun z => z.zone == "COLLAB")).map (fun z => z.cards)).getD []

/-- GameRoomScreen: `myBackHolomems`. -/
def myBackHolomems (p : GameRoomInput) : List ZoneCardInstance :=
  (((myBoardZones p).find? (fun z => z.zone == "BACK")).map (fun z => z.cards)).getD []

/-- GameRoomScreen: `pendingDecisions` (`currentGameState?.pendingDecisions ?? []`). -/
def pendingDecisionsOf (p : GameRoomInput) : List PendingDecision :=
  ((p.currentGameState).map (fun gs => gs.pendingDecisions)).getD []

/-- GameRoomScreen: `activePendingDecision` — the head of the queue. -/
def activePendingDecision (p : GameRoomInput) : Option PendingDecision :=
  (pendingDecisionsOf p).head?

/-- GameRoomScreen: `pendingInteractions` (`currentGameState?.pendingInteractions ?? []`). -/
def pendingInteractionsOf (p : GameRoomInput) : List PendingInteraction :=
  ((p.currentGameState).map (fun gs => gs.pendingInteractions)).getD []

/-- GameRoomScreen: `activePendingInteraction` — the head of the queue. -/
def activePendingInteraction (p : GameRoomInput) : Option PendingInteraction :=
  (pendingInteractionsOf p).head?

/-- GameRoomScreen: `recentActions` (`currentGameState?.recentActions ?? []`). -/
def recentActionsOf (p : GameRoomInput) : List RecentMatchAction :=
  ((p.currentGameState).map (fun gs => gs.recentActions)).getD []

/-- GameRoomScreen: the `currentGameState?.status === 'STARTED'` test. -/
def gsStatusStarted (p : GameRoomInput) : Bool :=
  match p.currentGameState with
  | none => false
  | some gs => gs.status == "STARTED"

/-- GameRoomScreen: `canSubmitAction` — the Action Gate predicate. -/
def canSubmitAction (p : GameRoomInput) : Bool :=
  !p.busy && isMyTurn p && gsStatusStarted p &&
    !(activePendingDecision p).isSome && !(activePendingInteraction p).isSome

/-- Block reason shown while a request is in flight. -/
def busyBlockMsg : String := "操作進行中，請稍候。"

/-- Block reason shown when it is not the local player's turn. -/
def notYourTurnMsg : String := "目前不是你的回合。"

/-- Block reason shown when the match is not in the STARTED state. -/
def notStartedMsg : String := "對戰尚未開始或已結束。"

/-- Block reason shown while a pending decision is queued. -/
def decisionPendingMsg : String := "目前有待處理效果，請先完成「效果選擇」。"

/-- Block reason shown while a pending interaction is queued. -/
def interactionPendingMsg : String := "目前有待確認互動，請先完成彈窗確認。"

/-- GameRoomScreen: `resolveGlobalActionBlockReason` — the first failing
gate condition, in priority order. -/
def resolveGlobalActionBlockReason (p : GameRoomInput) : Option String :=
  if p.busy then some busyBlockMsg
  else if !(isMyTurn p) then some notYourTurnMsg
  else if !(gsStatusStarted p) then some notStartedMsg
  else if (activePendingDecision p).isSome then some decisionPendingMsg
  else if (activePendingInteraction p).isSome then some interactionPendingMsg
  else none

/-- GameRoomScreen: `levelRank` — numeric rank of a bloom level tier. -/
def levelRank (level : Option String) : Int :=
  let u := jsToUpper (level.getD "")
  if u == "DEBUT" then 0
  else if u == "FIRST" then 1
  else if u == "SECOND" then 2
  else -1

/-- GameRoomScreen: `cardType` — catalog card type of a card, `""` while the
catalog entry is missing. -/
def cardTypeOf (p : GameRoomInput) (card : ZoneCardInstance) : String :=
  (((p.cardInfoById card.cardId).map (fun i => i.cardType))).getD ""

/-- GameRoomScreen: the `(info?.name ?? '').trim()` projection used by the
bloom-target logic. -/
def cardDisplayName (p : GameRoomInput) (card : ZoneCardInstance) : String :=
  jsTrim (((p.cardInfoById card.cardId).map (fun i => i.name)).getD "")

/-- GameRoomScreen: the `(info?.levelType ?? '').toUpperCase()` projection. -/
def cardLevelUpper (p : GameRoomInput) (card : ZoneCardInstance) : String :=
  jsToUpper (((p.cardInfoById card.cardId).bind (fun i => i.levelType)).getD "")

/-- GameRoomScreen: `levelRank` applied to a card's upper-cased level. -/
def cardRank (p : GameRoomInput) (card : ZoneCardInstance) : Int :=
  levelRank (some (cardLevelUpper p card))

/-- The hand-action kinds of `GameRoomScreen`. -/
inductive HandActionKind where
  | PLAY_TO_STAGE
  | PLAY_SUPPORT
  | ATTACH_CHEER
  | BLOOM
  deriving DecidableEq, Repr

/-- GameRoomScreen: `resolveDefaultHandAction` — which action a hand card
offers, from its catalog type and rank tier. -/
def resolveDefaultHandAction (p : GameRoomInput) (card : ZoneCardInstance) :
    Option HandActionKind :=
  let type := cardTypeOf p card
  if type == "MEMBER" then
    let level := cardLevelUpper p card
    if level == "FIRST" || level == "SECOND" || level == "BUZZ" then some .BLOOM
    else if level == "DEBUT" || level == "SPOT" then some .PLAY_TO_STAGE
    else none
  else if type == "SUPPORT" then some .PLAY_SUPPORT
  else if type == "CHEER" then some .ATTACH_CHEER
  else none

/-- A bloom-target candidate together with its selectability verdict. -/
structure BloomTargetOption where
  target : ZoneCardInstance
  selectable : Bool
  reason : Option String
  deriving DecidableEq, Repr

/-- Rejection reason: the bloom card has no usable rank information. -/
def bloomNoLevelMsg : String := "此卡沒有可用的 BLOOM 等級資訊"

/-- Rejection reason: the target has no usable rank information. -/
def bloomTargetNoLevelMsg : String := "目標缺少可判定的等級資訊"

/-- Rejection reason: SPOT units cannot be bloom targets. -/
def bloomSpotMsg : String := "Spot Holomem 不能作為 BLOOM 目標"

/-- Rejection reason: name mismatch. -/
def bloomNameMismatchMsg : String := "名稱不同，不能 BLOOM"

/-- Rejection reason: the rank does not step up by exactly one. -/
def bloomRankMismatchMsg : String := "等級不符，必須依序遞進 BLOOM"

/-- GameRoomScreen: the `reason` chain computed for one bloom target inside
`resolveBloomTargetOptions`. -/
def bloomTargetReason (p : GameRoomInput) (bloomCard target : ZoneCardInstance) :
    Option String :=
  let bloomName := cardDisplayName p bloomCard
  let bloomLevel := cardLevelUpper p bloomCard
  let bloomRank := levelRank (some bloomLevel)
  let targetName := cardDisplayName p target
  let targetLevel := cardLevelUpper p target
  let targetRank := levelRank (some targetLevel)
  if bloomName == "" || bloomLevel == "" || bloomRank ≤ 0 then some bloomNoLevelMsg
  else if targetName == "" || targetLevel == "" || targetRank < 0 then
    some bloomTargetNoLevelMsg
  else if targetLevel == "SPOT" then some bloomSpotMsg
  else if targetName != bloomName then some bloomNameMismatchMsg
  else if targetRank + 1 != bloomRank then some bloomRankMismatchMsg
  else none

/-- GameRoomScreen: the body of the map inside `resolveBloomTargetOptions`,
judging one on-field target against the bloom card. -/
def bloomTargetVerdict (p : GameRoomInput) (bloomCard target : ZoneCardInstance) :
    BloomTargetOption :=
  { target := target, selectable := (bloomTargetReason p bloomCard target).isNone,
    reason := bloomTargetReason p bloomCard target }

/-- GameRoomScreen: `resolveBloomTargetOptions` — one verdict per on-field
holomem of the local player. -/
def resolveBloomTargetOptions (p : GameRoomInput) (bloomCard : ZoneCardInstance) :
    List BloomTargetOption :=
  (myHolomems p).map (bloomTargetVerdict p bloomCard)

/-- Availability verdict for a hand card (`HandActionAvailability`). -/
structure HandActionAvailability where
  kind : Option HandActionKind
  selectable : Bool
  reason : Option String
  bloomOptions : Option (List BloomTargetOption)
  deriving DecidableEq, Repr

/-- Reason shown when a hand card offers no action at all. -/
def noActionMsg : String := "此卡目前沒有可用操作。"

/-- Reason shown when the back row already holds five cards. -/
def backFullMsg : String := "BACK 已滿（最多 5 張），無法再放置。"

/-- Reason shown when no holomem is on stage to attach cheer to. -/
def noAttachTargetMsg : String := "場上沒有可附加的 Holomem。"

/-- Reason shown when no bloom target is selectable and no per-target
reasons were collected. -/
def noBloomTargetMsg : String := "目前沒有可執行 BLOOM 的對象。"

/-- GameRoomScreen: `resolveHandActionAvailability` — combines the default
action of the card, the global gate, and the per-kind local legality. -/
def resolveHandActionAvailability (p : GameRoomInput) (card : ZoneCardInstance) :
    HandActionAvailability :=
  match resolveDefaultHandAction p card with
  | none =>
    { kind := none, selectable := false, reason := some noActionMsg, bloomOptions := none }
  | some kind =>
    match resolveGlobalActionBlockReason p with
    | some blockedReason =>
      { kind := some kind, selectable := false, reason := some blockedReason,
        bloomOptions := none }
    | none =>
      if kind == .PLAY_TO_STAGE then
        if 5 ≤ (myBackHolomems p).length then
          { kind := some kind, selectable := false, reason := some backFullMsg,
            bloomOptions := none }
        else
          { kind := some kind, selectable := true, reason := none, bloomOptions := none }
      else if kind == .ATTACH_CHEER then
        if (myHolomems p).length == 0 then
          { kind := some kind, selectable := false, reason := some noAttachTargetMsg,
            bloomOptions := none }
        else
          { kind := some kind, selectable := true, reason := none, bloomOptions := none }
      else if kind == .BLOOM then
        let bloomOptions := resolveBloomTargetOptions p card
        let selectableCount := (bloomOptions.filter (fun o => o.selectable)).length
        if selectableCount == 0 then
          let reasonSummary := (bloomOptions.filterMap (fun o => o.reason)).eraseDups
          { kind := some kind, selectable := false,
            reason := some
              (if reasonSummary.length > 0 then
                noBloomTargetMsg ++ "原因：" ++ String.intercalate "；" reasonSummary
              else noBloomTargetMsg),
            bloomOptions := some bloomOptions }
        else
          { kind := some kind, selectable := true, reason := none,
            bloomOptions := some bloomOptions }
      else
        { kind := some kind, selectable := true, reason := none, bloomOptions := none }

/-- The draft produced when a hand card is clicked (`HandActionDraft`). -/
structure HandActionDraft where
  card : ZoneCardInstance
  kind : HandActionKind
  targetZone : String
  targetHolomemCardInstanceId : Option Int
  deriving DecidableEq, Repr

/-- GameRoomScreen: `openHandAction` — `none` models the refusal paths that
show an info modal and build no request draft. -/
def openHandAction (p : GameRoomInput) (card : ZoneCardInstance) :
    Option HandActionDraft :=
  let availability := resolveHandActionAvailability p card
  match availability.kind with
  | none => none
  | some kind =>
    if !availability.selectable then none
    else
      let selectableBloomTargets :=
        (availability.bloomOptions.getD []).filter (fun o => o.selectable)
      some
        { card := card, kind := kind, targetZone := "BACK",
          targetHolomemCardInstanceId :=
            if kind == .ATTACH_CHEER then
              ((myHolomems p).head?).map (fun c => c.cardInstanceId)
            else if kind == .BLOOM then
              (selectableBloomTargets.head?).map (fun o => o.target.cardInstanceId)
            else none }

/-- GameRoomScreen: `myTurnActions` — log entries of the local player for
the snapshot's current turn (empty when there is no local player or the
turn counter is falsy). -/
def myTurnActions (p : GameRoomInput) : List RecentMatchAction :=
  match p.currentUserId, p.currentGameState with
  | some uid, some gs =>
    if gs.turnNumber == 0 then []
    else (recentActionsOf p).filter
      (fun a => a.userId == uid && a.turnNumber == gs.turnNumber)
  | _, _ => []

/-- GameRoomScreen: `hasUsedTurnDraw`. -/
def hasUsedTurnDraw (p : GameRoomInput) : Bool :=
  (myTurnActions p).any (fun a => a.actionType == "DRAW_TURN")

/-- GameRoomScreen: `hasUsedTurnCheer`. -/
def hasUsedTurnCheer (p : GameRoomInput) : Bool :=
  (myTurnActions p).any (fun a => a.actionType == "TURN_CHEER")

/-- GameRoomScreen: `canPerformTurnCheer` — cheer deck non-empty and at
least one holomem on stage. -/
def canPerformTurnCheer (p : GameRoomInput) : Bool :=
  let hasCheerInDeck := decide (0 < ((myState p).map (fun st => st.cheerDeckCount)).getD 0)
  let hasHolomemOnStage := decide (0 < (myHolomems p).length)
  hasCheerInDeck && hasHolomemOnStage

/-- GameRoomScreen: the itemized list of missing mandatory turn actions
built by `handleEndTurnClick`. -/
def endTurnMissing (p : GameRoomInput) : List String :=
  (if !(hasUsedTurnDraw p) then ["抽卡"] else []) ++
    (if canPerformTurnCheer p && !(hasUsedTurnCheer p) then ["發送吶喊"] else [])

/-- Outcome of a click on the End Turn button. -/
inductive EndTurnOutcome where
  | ignored
  | blocked (missing : List String)
  | dispatched
  deriving DecidableEq, Repr

/-- GameRoomScreen: `handleEndTurnClick` — `dispatched` models the
`await onEndTurn()` call, `blocked` the local refusal modal. -/
def handleEndTurnClick (p : GameRoomInput) : EndTurnOutcome :=
  if p.busy || !(isMyTurn p) then .ignored
  else
    let missing := endTurnMissing p
    if missing.length > 0 then .blocked missing
    else .dispatched

/-- GameRoomScreen: `handleConcedeClick` — whether the confirmation dialog
opens. -/
def handleConcedeClick (p : GameRoomInput) : Bool :=
  !(p.busy || p.currentMatch.status != "STARTED")

/-- GameRoomScreen: `confirmConcede` — whether the concede request is
dispatched once the dialog is confirmed. -/
def confirmConcede (p : GameRoomInput) : Bool :=
  !p.busy

/-- Outcome of a click on one of the local player's zones. -/
inductive ZoneClickOutcome where
  | blockedMsg (msg : String)
  | alreadyDrawn
  | alreadyCheered
  | dispatchDraw
  | dispatchCheer
  | noop
  deriving DecidableEq, Repr

/-- GameRoomScreen: `handleMyZoneClick` — zone 5 is the deck (turn draw),
zone 8 the cheer deck (turn cheer). -/
def handleMyZoneClick (p : GameRoomInput) (zoneId : Int) : ZoneClickOutcome :=
  match resolveGlobalActionBlockReason p with
  | some r => .blockedMsg r
  | none =>
    if zoneId == 5 then
      if hasUsedTurnDraw p then .alreadyDrawn else .dispatchDraw
    else if zoneId == 8 then
      if hasUsedTurnCheer p then .alreadyCheered else .dispatchCheer
    else .noop

/-- GameRoomScreen: the attack button is enabled exactly when the gate is
open and an attacker is selected. -/
def attackButtonEnabled (p : GameRoomInput) (attackerCardInstanceId : Option Int) : Bool :=
  canSubmitAction p && attackerCardInstanceId.isSome

/-- A stage-move draft (`StageMoveDraft`), reduced to the movability flag
consulted by `confirmStageMove`. -/
structure StageMoveDraft where
  cardInstanceId : Int
  targetZone : String
  movable : Bool
  deriving DecidableEq, Repr

/-- GameRoomScreen: `confirmStageMove` — whether the move request is
dispatched. -/
def confirmStageMove (p : GameRoomInput) (draft : StageMoveDraft) : Bool :=
  canSubmitAction p && draft.movable

/-- GameRoomScreen: `toggleDecisionSelection` — the pure state update of
the pending-decision selection list. -/
def toggleDecisionSelection (active : Option PendingDecision) (busy : Bool)
    (previous : List Int) (cardInstanceId : Int) : List Int :=
  match active with
  | none => previous
  | some d =>
    if busy then previous
    else if previous.contains cardInstanceId then
      previous.filter (fun v => v != cardInstanceId)
    else if d.maxSelect ≤ (previous.length : Int) then previous
    else previous ++ [cardInstanceId]

/-- GameRoomScreen: `canResolveDecision`. -/
def canResolveDecision (active : Option PendingDecision) (busy : Bool)
    (selected : List Int) : Bool :=
  match active with
  | none => false
  | some d =>
    !busy && max d.minSelect 1 ≤ (selected.length : Int) &&
      (selected.length : Int) ≤ d.maxSelect

/-- GameRoomScreen: the `useEffect` keyed on `activePendingDecision?.decisionId`
that resets the selection list whenever the active decision id changes. -/
def selectionAfterDecisionChange (previousId currentId : Option Int)
    (selected : List Int) : List Int :=
  if currentId == previousId then selected else []

/-- Replaces the snapshot's pending-decision queue (identity when no
snapshot is loaded); used to compare behaviour across queue contents. -/
def setPendingDecisions (p : GameRoomInput) (ds : List PendingDecision) : GameRoomInput :=
  { p with currentGameState :=
      (p.currentGameState).map (fun gs => { gs with pendingDecisions := ds }) }

/-- Replaces the snapshot's pending-interaction queue (identity when no
snapshot is loaded). -/
def setPendingInteractions (p : GameRoomInput) (is : List PendingInteraction) :
    GameRoomInput :=
  { p with currentGameState :=
      (p.currentGameState).map (fun gs => { gs with pendingInteractions := is }) }

/-- Environment of one wrapped remote call (`withReauth` in `App.tsx`): the
result of the n-th invocation of the wrapped call, the axios 401 test, and
the result of the re-authentication step. -/
structure SessionEnv (ε α : Type) where
  call : Nat → Except ε α
  isAuthError : ε → Bool
  reauth : Except ε Unit

/-- Observable trace of a `withReauth` run: result returned to the caller,
number of re-authentication attempts, number of invocations of the wrapped
call. -/
structure ReauthTrace (ε α : Type) where
  result : Except ε α
  reauthCount : Nat
  callCount : Nat
  deriving Repr

/-- App.tsx: `withReauth(fn, retry = false)` — the recursive call after a
successful re-authentication; any failure is rethrown unchanged. -/
def withReauthNoRetry {ε α : Type} (env : SessionEnv ε α) (n : Nat) : ReauthTrace ε α :=
  match env.call n with
  | .ok a => { result := .ok a, reauthCount := 0, callCount := 1 }
  | .error e => { result := .error e, reauthCount := 0, callCount := 1 }

/-- App.tsx: `withReauth(fn)` — try the call; on a 401, re-authenticate once
and retry exactly once; every other failure is rethrown unchanged. -/
def withReauth {ε α : Type} (env : SessionEnv ε α) : ReauthTrace ε α :=
  match env.call 0 with
  | .ok a => { result := .ok a, reauthCount := 0, callCount := 1 }
  | .error e =>
    if env.isAuthError e then
      match env.reauth with
      | .ok _ =>
        let t := withReauthNoRetry env 1
        { result := t.result, reauthCount := t.reauthCount + 1,
          callCount := t.callCount + 1 }
      | .error e2 => { result := .error e2, reauthCount := 1, callCount := 1 }
    else { result := .error e, reauthCount := 0, callCount := 1 }

/-- A parsed push-channel envelope (`LobbyEvent` in `services/api.ts`); the
`match` field is renamed `matchData` because `match` is a Lean keyword.
Runtime truthiness of the fields is modelled by `Option`. -/
structure LobbyEvent where
  eventType : String
  matchData : Option LobbyMatch
  gameState : Option GameState
  deriving DecidableEq, Repr

/-- The State Store slice written by the WebSocket handler. -/
structure StateStore where
  currentMatch : Option LobbyMatch
  currentGameState : Option GameState
  deriving DecidableEq, Repr

/-- App.tsx: `socket.onmessage` — parse the raw frame; on parse failure log
and drop (store unchanged); otherwise apply exactly the fields present. -/
def handleSocketMessage (parse : String → Option LobbyEvent) (store : StateStore)
    (raw : String) : StateStore :=
  match parse raw with
  | none => store
  | some payload =>
    let s1 :=
      match payload.matchData with
      | some m => { store with currentMatch := some m }
      | none => store
    match payload.gameState with
    | some gs => { s1 with currentGameState := some gs }
    | none => s1

/-! ## Theorems -/

/-- C3: for any wrapped remote call, the Session Guard returns a successful
result unchanged; on an authorization failure it re-authenticates exactly
once and retries the original call exactly once, returning the retry's
result on success; if the retry also fails, or re-authentication itself
fails, or the original failure is not an authorization failure, the failure
propagates unchanged; re-authentication is never performed more than once
per call. -/
theorem session_guard_reauth_policy {ε α : Type} (env : SessionEnv ε α) :
    (withReauth env).reauthCount ≤ 1 ∧
    (∀ a, env.call 0 = .ok a →
      withReauth env = { result := .ok a, reauthCount := 0, callCount := 1 }) ∧
    (∀ e a, env.call 0 = .error e → env.isAuthError e = true → env.reauth = .ok () →
      env.call 1 = .ok a →
      withReauth env = { result := .ok a, reauthCount := 1, callCount := 2 }) ∧
    (∀ e e', env.call 0 = .error e → env.isAuthError e = true → env.reauth = .ok () →
      env.call 1 = .error e' →
      withReauth env = { result := .error e', reauthCount := 1, callCount := 2 }) ∧
    (∀ e e', env.call 0 = .error e → env.isAuthError e = true → env.reauth = .error e' →
      withReauth env = { result := .error e', reauthCount := 1, callCount := 1 }) ∧
    (∀ e, env.call 0 = .error e → env.isAuthError e = false →
      withReauth env = { result := .error e, reauthCount := 0, callCount := 1 }) := by
  refine ⟨?_, ?_, ?_, ?_, ?_, ?_⟩
  · unfold withReauth withReauthNoRetry
    cases h0 : env.call 0 with
    | ok a => simp
    | error e =>
      cases hA : env.isAuthError e with
      | false => simp [hA]
      | true =>
        cases hR : env.reauth with
        | ok u =>
          cases h1 : env.call 1 <;> simp [hA, hR, h1]
        | error e2 => simp [hA, hR]
  · intro a h0
    simp [withReauth, h0]
  · intro e a h0 hA hR h1
    simp [withReauth, withReauthNoRetry, h0, hA, hR, h1]
  · intro e e' h0 hA hR h1
    simp [withReauth, withReauthNoRetry, h0, hA, hR, h1]
  · intro e e' h0 hA hR
    simp [withReauth, h0, hA, hR]
  · intro e h0 hA
    simp [withReauth, h0, hA]

/-- A concrete session environment: the first invocation fails with a 401,
the retry succeeds. -/
def c3Env : SessionEnv String Nat :=
  { call := fun n => if n == 0 then .error "401" else .ok 7,
    isAuthError := fun e => e == "401",
    reauth := .ok () }

/-- C3 witness: on the concrete environment the guard returns the retry's
success and re-authenticates exactly once. -/
theorem session_guard_reauth_policy_witness :
    withReauth c3Env = { result := .ok 7, reauthCount := 1, callCount := 2 } :=
  (session_guard_reauth_policy c3Env).2.2.1 "401" 7 rfl rfl rfl rfl

/-- C9: a message that fails to parse leaves the State Store unchanged; a
parsed envelope updates exactly the fields it carries and leaves any field
it omits unchanged. -/
theorem push_message_state_store (parse : String → Option LobbyEvent)
    (store : StateStore) (raw : String) :
    (parse raw = none → handleSocketMessage parse store raw = store) ∧
    (∀ ev, parse raw = some ev →
      (ev.matchData = none →
        (handleSocketMessage parse store raw).currentMatch = store.currentMatch) ∧
      (∀ m, ev.matchData = some m →
        (handleSocketMessage parse store raw).currentMatch = some m) ∧
      (ev.gameState = none →
        (handleSocketMessage parse store raw).currentGameState = store.currentGameState) ∧
      (∀ gs, ev.gameState = some gs →
        (handleSocketMessage parse store raw).currentGameState = some gs)) := by
  constructor
  · intro h
    simp [handleSocketMessage, h]
  · intro ev h
    refine ⟨?_, ?_, ?_, ?_⟩
    · intro hm
      cases hg : ev.gameState <;> simp [handleSocketMessage, h, hm, hg]
    · intro m hm
      cases hg : ev.gameState <;> simp [handleSocketMessage, h, hm, hg]
    · intro hg
      cases hm : ev.matchData <;> simp [handleSocketMessage, h, hm, hg]
    · intro gs hg
      cases hm : ev.matchData <;> simp [handleSocketMessage, h, hm, hg]

/-- A concrete well-parsed envelope carrying only a match summary. -/
def c9Event : LobbyEvent :=
  { eventType := "MATCH_UPDATE",
    matchData := some { status := "STARTED", currentTurnPlayerId := some 2 },
    gameState := none }

/-- A concrete parse function: only the frame `"good"` parses. -/
def c9Parse : String → Option LobbyEvent :=
  fun raw => if raw == "good" then some c9Event else none

/-- A concrete State Store before the message arrives. -/
def c9Store : StateStore :=
  { currentMatch := some { status := "WAITING", currentTurnPlayerId := none },
    currentGameState := none }

/-- C9 witness: the malformed frame is dropped (store unchanged) and the
well-parsed frame replaces exactly the match field. -/
theorem push_message_state_store_witness :
    handleSocketMessage c9Parse c9Store "garbage" = c9Store ∧
    (handleSocketMessage c9Parse c9Store "good").currentMatch =
      some { status := "STARTED", currentTurnPlayerId := some 2 } ∧
    (handleSocketMessage c9Parse c9Store "good").currentGameState =
      c9Store.currentGameState :=
  ⟨(push_message_state_store c9Parse c9Store "garbage").1 rfl,
   ((push_message_state_store c9Parse c9Store "good").2 c9Event rfl).2.1 _ rfl,
   ((push_message_state_store c9Parse c9Store "good").2 c9Event rfl).2.2.1 rfl⟩

/-- C10: the toggle operation preserves the no-duplicates and
length-at-most-`maxSelect` invariants of the decision selection list;
toggling a selected id removes it, toggling a new id at the cap is a no-op,
and the selection resets to empty whenever the active decision id changes. -/
theorem decision_selection_invariant :
    (∀ (active : Option PendingDecision) (d : PendingDecision) (busy : Bool)
       (prev : List Int) (cid : Int), active = some d →
      prev.Nodup → (prev.length : Int) ≤ d.maxSelect →
      (toggleDecisionSelection active busy prev cid).Nodup ∧
        ((toggleDecisionSelection active busy prev cid).length : Int) ≤ d.maxSelect) ∧
    (∀ (d : PendingDecision) (prev : List Int) (cid : Int), cid ∈ prev →
      toggleDecisionSelection (some d) false prev cid = prev.filter (fun v => v != cid) ∧
        cid ∉ toggleDecisionSelection (some d) false prev cid) ∧
    (∀ (d : PendingDecision) (prev : List Int) (cid : Int), cid ∉ prev →
      d.maxSelect ≤ (prev.length : Int) →
      toggleDecisionSelection (some d) false prev cid = prev) ∧
    (∀ (previousId currentId : Option Int) (sel : List Int), currentId ≠ previousId →
      selectionAfterDecisionChange previousId currentId sel = []) := by
  refine ⟨?_, ?_, ?_, ?_⟩
  · intro active d busy prev cid hact hnd hlen
    subst hact
    cases busy with
    | true =>
      have he : toggleDecisionSelection (some d) true prev cid = prev := rfl
      rw [he]
      exact ⟨hnd, hlen⟩
    | false =>
      by_cases hmem : cid ∈ prev
      · have he : toggleDecisionSelection (some d) false prev cid
            = prev.filter (fun v => v != cid) := by
          simp [toggleDecisionSelection, hmem]
        rw [he]
        refine ⟨hnd.filter _, le_trans ?_ hlen⟩
        exact_mod_cast List.length_filter_le _ prev
      · by_cases hcap : d.maxSelect ≤ (prev.length : Int)
        · have he : toggleDecisionSelection (some d) false prev cid = prev := by
            simp [toggleDecisionSelection, hmem, hcap]
          rw [he]
          exact ⟨hnd, hlen⟩
        · have he : toggleDecisionSelection (some d) false prev cid = prev ++ [cid] := by
            simp [toggleDecisionSelection, hmem, hcap]
          rw [he]
          constructor
          · simp [List.nodup_append, hnd, hmem]
          · push_neg at hcap
            simp only [List.length_append, List.length_cons, List.length_nil]
            push_cast
            omega
  · intro d prev cid hmem
    have he : toggleDecisionSelection (some d) false prev cid
        = prev.filter (fun v => v != cid) := by
      simp [toggleDecisionSelection, hmem]
    refine ⟨he, ?_⟩
    rw [he]
    intro hin
    have := (List.mem_filter.mp hin).2
    simp at this
  · intro d prev cid hmem hcap
    simp [toggleDecisionSelection, hmem, hcap]
  · intro previousId currentId sel hne
    unfold selectionAfterDecisionChange
    simp [hne]

/-- C10 witness: concrete toggles — removal of a selected id, no-op at the
cap, and reset on decision change. -/
theorem decision_selection_invariant_witness :
    (toggleDecisionSelection
        (some { decisionId := 9, effectType := "SELECT_TARGET", minSelect := 1,
                maxSelect := 2 }) false [4, 6] 6 = [4] ∧
      6 ∉ toggleDecisionSelection
        (some { decisionId := 9, effectType := "SELECT_TARGET", minSelect := 1,
                maxSelect := 2 }) false [4, 6] 6) ∧
    toggleDecisionSelection
        (some { decisionId := 9, effectType := "SELECT_TARGET", minSelect := 1,
                maxSelect := 2 }) false [4, 6] 8 = [4, 6] ∧
    selectionAfterDecisionChange (some 9) (some 10) [4, 6] = [] := by
  refine ⟨?_, ?_, ?_⟩
  · have h := (decision_selection_invariant).2.1
      { decisionId := 9, effectType := "SELECT_TARGET", minSelect := 1, maxSelect := 2 }
      [4, 6] 6 (by decide)
    exact ⟨h.1.trans (by decide), h.2⟩
  · exact (decision_selection_invariant).2.2.1
      { decisionId := 9, effectType := "SELECT_TARGET", minSelect := 1, maxSelect := 2 }
      [4, 6] 8 (by decide) (by decide)
  · exact (decision_selection_invariant).2.2.2 (some 9) (some 10) [4, 6] (by decide)

/-- The code-level turn test unfolded to its spec-level reading: a local
player id exists and equals the match's active turn owner. -/
lemma isMyTurn_iff (p : GameRoomInput) :
    isMyTurn p = true ↔
      ∃ uid, p.currentUserId = some uid ∧
        p.currentMatch.currentTurnPlayerId = some uid := by
  unfold isMyTurn
  cases hc : p.currentUserId with
  | none => simp
  | some uid => simp [hc]

/-- The code-level lifecycle test unfolded to its spec-level reading: a
snapshot is loaded and its status is STARTED. -/
lemma started_iff (p : GameRoomInput) :
    gsStatusStarted p = true ↔
      ∃ gs, p.currentGameState = some gs ∧ gs.status = "STARTED" := by
  unfold gsStatusStarted
  cases h : p.currentGameState <;> simp [h]

/-- The active decision is absent exactly when the queue is empty. -/
lemma activeDecision_none_iff (p : GameRoomInput) :
    activePendingDecision p = none ↔ pendingDecisionsOf p = [] := by
  unfold activePendingDecision
  cases pendingDecisionsOf p <;> simp

/-- The active interaction is absent exactly when the queue is empty. -/
lemma activeInteraction_none_iff (p : GameRoomInput) :
    activePendingInteraction p = none ↔ pendingInteractionsOf p = [] := by
  unfold activePendingInteraction
  cases pendingInteractionsOf p <;> simp

/-- The gate predicate unfolded to the five Bool/Option conditions. -/
lemma canSubmitAction_eq (p : GameRoomInput) :
    canSubmitAction p = true ↔
      p.busy = false ∧ isMyTurn p = true ∧ gsStatusStarted p = true ∧
        activePendingDecision p = none ∧ activePendingInteraction p = none := by
  unfold canSubmitAction
  cases p.busy <;> cases isMyTurn p <;> cases gsStatusStarted p <;>
    cases activePendingDecision p <;> cases activePendingInteraction p <;> simp

/-- C2: the Action Gate permits a new action exactly when no request is in
flight, the local player owns the turn, the snapshot status is STARTED, and
both interrupt queues are empty; the block reason reports the first failing
condition in the priority order busy / not-your-turn / not-started /
decision-pending / interaction-pending, and is absent exactly when the gate
is open. -/
theorem action_gate_characterization (p : GameRoomInput) :
    (canSubmitAction p = true ↔
      p.busy = false ∧
      (∃ uid, p.currentUserId = some uid ∧
        p.currentMatch.currentTurnPlayerId = some uid) ∧
      (∃ gs, p.currentGameState = some gs ∧ gs.status = "STARTED") ∧
      pendingDecisionsOf p = [] ∧ pendingInteractionsOf p = []) ∧
    (resolveGlobalActionBlockReason p = none ↔ canSubmitAction p = true) ∧
    (p.busy = true → resolveGlobalActionBlockReason p = some busyBlockMsg) ∧
    (p.busy = false →
      (¬ ∃ uid, p.currentUserId = some uid ∧
          p.currentMatch.currentTurnPlayerId = some uid) →
      resolveGlobalActionBlockReason p = some notYourTurnMsg) ∧
    (p.busy = false →
      (∃ uid, p.currentUserId = some uid ∧
        p.currentMatch.currentTurnPlayerId = some uid) →
      (¬ ∃ gs, p.currentGameState = some gs ∧ gs.status = "STARTED") →
      resolveGlobalActionBlockReason p = some notStartedMsg) ∧
    (p.busy = false →
      (∃ uid, p.currentUserId = some uid ∧
        p.currentMatch.currentTurnPlayerId = some uid) →
      (∃ gs, p.currentGameState = some gs ∧ gs.status = "STARTED") →
      pendingDecisionsOf p ≠ [] →
      resolveGlobalActionBlockReason p = some decisionPendingMsg) ∧
    (p.busy = false →
      (∃ uid, p.currentUserId = some uid ∧
        p.currentMatch.currentTurnPlayerId = some uid) →
      (∃ gs, p.currentGameState = some gs ∧ gs.status = "STARTED") →
      pendingDecisionsOf p = [] → pendingInteractionsOf p ≠ [] →
      resolveGlobalActionBlockReason p = some interactionPendingMsg) := by
  refine ⟨?_, ?_, ?_, ?_, ?_, ?_, ?_⟩
  · rw [canSubmitAction_eq, isMyTurn_iff, started_iff, activeDecision_none_iff,
      activeInteraction_none_iff]
  · unfold resolveGlobalActionBlockReason canSubmitAction
    cases p.busy <;> cases isMyTurn p <;> cases gsStatusStarted p <;>
      cases activePendingDecision p <;> cases activePendingInteraction p <;> simp
  · intro hb
    unfold resolveGlobalActionBlockReason
    simp [hb]
  · intro hb hA
    have ht : isMyTurn p = false := by
      cases h : isMyTurn p
      · rfl
      · exact absurd ((isMyTurn_iff p).mp h) hA
    unfold resolveGlobalActionBlockReason
    simp [hb, ht]
  · intro hb hA hB
    have ht : isMyTurn p = true := (isMyTurn_iff p).mpr hA
    have hs : gsStatusStarted p = false := by
      cases h : gsStatusStarted p
      · rfl
      · exact absurd ((started_iff p).mp h) hB
    unfold resolveGlobalActionBlockReason
    simp [hb, ht, hs]
  · intro hb hA hB hd
    have ht : isMyTurn p = true := (isMyTurn_iff p).mpr hA
    have hs : gsStatusStarted p = true := (started_iff p).mpr hB
    have hdec : (activePendingDecision p).isSome = true := by
      cases h : activePendingDecision p
      · exact absurd ((activeDecision_none_iff p).mp h) hd
      · rfl
    unfold resolveGlobalActionBlockReason
    simp [hb, ht, hs, hdec]
  · intro hb hA hB hd hi
    have ht : isMyTurn p = true := (isMyTurn_iff p).mpr hA
    have hs : gsStatusStarted p = true := (started_iff p).mpr hB
    have hdec : activePendingDecision p = none := (activeDecision_none_iff p).mpr hd
    have hint : (activePendingInteraction p).isSome = true := by
      cases h : activePendingInteraction p
      · exact absurd ((activeInteraction_none_iff p).mp h) hi
      · rfl
    unfold resolveGlobalActionBlockReason
    simp [hb, ht, hs, hdec, hint]

/-- A concrete snapshot with no interrupts and an empty log, status
STARTED at turn 1. -/
def c2gs : GameState :=
  { status := "STARTED", turnNumber := 1, players := [],
    pendingDecisions := [], pendingInteractions := [], recentActions := [] }

/-- A concrete gate-open game-room state for player 1. -/
def c2input : GameRoomInput :=
  { currentMatch := { status := "STARTED", currentTurnPlayerId := some 1 },
    currentGameState := some c2gs,
    currentUserId := some 1,
    busy := false,
    cardInfoById := fun _ => none }

/-- C2 witness: the concrete state passes the gate, and flipping the busy
flag yields the busy block reason (the highest-priority cause). -/
theorem action_gate_characterization_witness :
    canSubmitAction c2input = true ∧
    resolveGlobalActionBlockReason { c2input with busy := true } = some busyBlockMsg :=
  ⟨(action_gate_characterization c2input).1.mpr
      ⟨rfl, ⟨1, rfl, rfl⟩, ⟨c2gs, rfl, rfl⟩, rfl, rfl⟩,
   (action_gate_characterization { c2input with busy := true }).2.2.1 rfl⟩

/-- Projection facts: replacing the decision queue changes nothing an
end-turn or concede handler reads. -/
lemma handleEndTurnClick_setDecisions (p : GameRoomInput) (ds : List PendingDecision) :
    handleEndTurnClick (setPendingDecisions p ds) = handleEndTurnClick p := by
  rcases p with ⟨m, ogs, uid, b, info⟩
  cases ogs with
  | none => rfl
  | some gs =>
    cases gs
    cases uid with
    | none => rfl
    | some u => rfl

/-- A non-empty decision queue makes the head present. -/
lemma activeDecision_isSome_of_ne (p : GameRoomInput)
    (hd : pendingDecisionsOf p ≠ []) : (activePendingDecision p).isSome = true := by
  cases h : activePendingDecision p
  · exact absurd ((activeDecision_none_iff p).mp h) hd
  · rfl

/-- C1 (amended): while the PendingDecisions queue is non-empty, every
action surface that consults the Action Gate — hand-card actions, the
attack button, the draw and send-cheer zones, stage moves — is refused; but
the end-turn and concede handlers are not gated on pending decisions: their
outcomes are unchanged by the contents of the decision queue. -/
theorem decision_gating_scope (p : GameRoomInput) (ds : List PendingDecision) :
    (pendingDecisionsOf p ≠ [] →
      canSubmitAction p = false ∧
      (resolveGlobalActionBlockReason p).isSome = true ∧
      (∀ card, (resolveHandActionAvailability p card).selectable = false) ∧
      (∀ card, openHandAction p card = none) ∧
      (∀ z, handleMyZoneClick p z ≠ .dispatchDraw ∧
        handleMyZoneClick p z ≠ .dispatchCheer) ∧
      (∀ a, attackButtonEnabled p a = false) ∧
      (∀ m, confirmStageMove p m = false)) ∧
    handleEndTurnClick (setPendingDecisions p ds) = handleEndTurnClick p ∧
    handleConcedeClick (setPendingDecisions p ds) = handleConcedeClick p ∧
    confirmConcede (setPendingDecisions p ds) = confirmConcede p := by
  refine ⟨?_, handleEndTurnClick_setDecisions p ds, rfl, rfl⟩
  intro hd
  have hdec : (activePendingDecision p).isSome = true := activeDecision_isSome_of_ne p hd
  have hcs : canSubmitAction p = false := by
    unfold canSubmitAction
    simp [hdec]
  have hblock : (resolveGlobalActionBlockReason p).isSome = true := by
    unfold resolveGlobalActionBlockReason
    cases p.busy <;> cases isMyTurn p <;> cases gsStatusStarted p <;> simp [hdec]
  obtain ⟨r, hr⟩ := Option.isSome_iff_exists.mp hblock
  have havail : ∀ card, (resolveHandActionAvailability p card).selectable = false := by
    intro card
    unfold resolveHandActionAvailability
    cases hk : resolveDefaultHandAction p card <;> simp [hr]
  refine ⟨hcs, hblock, havail, ?_, ?_, ?_, ?_⟩
  · intro card
    unfold openHandAction
    have hsel := havail card
    cases hk : (resolveHandActionAvailability p card).kind <;> simp [hk, hsel]
  · intro z
    unfold handleMyZoneClick
    rw [hr]
    simp
  · intro a
    unfold attackButtonEnabled
    simp [hcs]
  · intro m
    unfold confirmStageMove
    simp [hcs]

/-- A concrete snapshot with one pending decision, the turn draw already
used, and an empty cheer deck (so send-cheer is ineligible). -/
def c1gs : GameState :=
  { status := "STARTED", turnNumber := 1,
    players :=
      [{ userId := 1, handCards := [], boardZones := [], cheerDeckCount := 0 }],
    pendingDecisions :=
      [{ decisionId := 5, effectType := "SELECT_TARGET", minSelect := 1, maxSelect := 1 }],
    pendingInteractions := [],
    recentActions := [{ userId := 1, actionType := "DRAW_TURN", turnNumber := 1 }] }

/-- The game-room state of player 1 on their own turn with the pending
decision above queued. -/
def c1input : GameRoomInput :=
  { currentMatch := { status := "STARTED", currentTurnPlayerId := some 1 },
    currentGameState := some c1gs,
    currentUserId := some 1,
    busy := false,
    cardInfoById := fun _ => none }

/-- C1 counterexample: with a pending decision queued, the end-turn click
still dispatches the end-turn request, and the concede flow still proceeds,
contradicting the claim that every resolver except resolve-decision is
refused. -/
theorem endturn_dispatches_despite_pending_decision :
    pendingDecisionsOf c1input ≠ [] ∧
    handleEndTurnClick c1input = .dispatched ∧
    handleConcedeClick c1input = true ∧
    confirmConcede c1input = true := by
  refine ⟨by decide, by decide, by decide, by decide⟩

/-- C1 witness: the amended theorem applied at the concrete state — the
gated surfaces are refused while end-turn is unaffected by the queue. -/
theorem decision_gating_scope_witness :
    canSubmitAction c1input = false ∧
    (resolveGlobalActionBlockReason c1input).isSome = true ∧
    handleEndTurnClick (setPendingDecisions c1input []) = handleEndTurnClick c1input :=
  ⟨((decision_gating_scope c1input []).1 (by decide)).1,
   ((decision_gating_scope c1input []).1 (by decide)).2.1,
   (decision_gating_scope c1input []).2.1⟩

/-- Projection fact: clearing the interaction queue does not change the
lifecycle test. -/
lemma started_setInteractions (p : GameRoomInput) (is : List PendingInteraction) :
    gsStatusStarted (setPendingInteractions p is) = gsStatusStarted p := by
  unfold gsStatusStarted setPendingInteractions
  cases p.currentGameState <;> rfl

/-- Projection fact: clearing the interaction queue does not change the
active decision. -/
lemma activeDecision_setInteractions (p : GameRoomInput) (is : List PendingInteraction) :
    activePendingDecision (setPendingInteractions p is) = activePendingDecision p := by
  unfold activePendingDecision pendingDecisionsOf setPendingInteractions
  cases p.currentGameState <;> rfl

/-- C5 (amended): when the decision queue is non-empty the engine ignores
the interaction queue entirely — the block reason is identical to the one
computed with the interaction queue emptied (silent prioritization of the
decision queue), the gate closes, and each queue's head is taken
independently; no protocol-error class exists. -/
theorem both_queues_decision_priority (p : GameRoomInput)
    (hd : pendingDecisionsOf p ≠ []) :
    resolveGlobalActionBlockReason p =
      resolveGlobalActionBlockReason (setPendingInteractions p []) ∧
    canSubmitAction p = false ∧
    activePendingDecision p = (pendingDecisionsOf p).head? ∧
    activePendingInteraction p = (pendingInteractionsOf p).head? := by
  have hdec : (activePendingDecision p).isSome = true := activeDecision_isSome_of_ne p hd
  refine ⟨?_, ?_, rfl, rfl⟩
  · have hb : (setPendingInteractions p []).busy = p.busy := rfl
    have hmy : isMyTurn (setPendingInteractions p []) = isMyTurn p := rfl
    unfold resolveGlobalActionBlockReason
    rw [hb, hmy, started_setInteractions, activeDecision_setInteractions]
    simp [hdec]
  · unfold canSubmitAction
    simp [hdec]

/-- A concrete inconsistent snapshot with both interrupt queues populated. -/
def c5gs : GameState :=
  { status := "STARTED", turnNumber := 1, players := [],
    pendingDecisions :=
      [{ decisionId := 5, effectType := "SELECT_TARGET", minSelect := 1, maxSelect := 1 }],
    pendingInteractions :=
      [{ interactionId := 6, interactionType := "SEND_CHEER", minSelect := 1,
         maxSelect := 1 }],
    recentActions := [] }

/-- The game-room state of player 1 with both queues populated. -/
def c5input : GameRoomInput :=
  { currentMatch := { status := "STARTED", currentTurnPlayerId := some 1 },
    currentGameState := some c5gs,
    currentUserId := some 1,
    busy := false,
    cardInfoById := fun _ => none }

/-- C5 counterexample: with both queues non-empty simultaneously, the
engine reports the ordinary decision-pending reason — exactly what it
reports with the interaction queue emptied — and still exposes both queue
heads; no protocol error of any kind is surfaced. -/
theorem both_queues_silently_prioritized :
    pendingDecisionsOf c5input ≠ [] ∧
    pendingInteractionsOf c5input ≠ [] ∧
    resolveGlobalActionBlockReason c5input = some decisionPendingMsg ∧
    resolveGlobalActionBlockReason c5input =
      resolveGlobalActionBlockReason (setPendingInteractions c5input []) ∧
    (activePendingDecision c5input).isSome = true ∧
    (activePendingInteraction c5input).isSome = true := by
  refine ⟨by decide, by decide, by decide, by decide, by decide, by decide⟩

/-- C5 witness: the amended theorem applied at the concrete both-queues
state. -/
theorem both_queues_decision_priority_witness :
    resolveGlobalActionBlockReason c5input =
      resolveGlobalActionBlockReason (setPendingInteractions c5input []) ∧
    canSubmitAction c5input = false :=
  ⟨(both_queues_decision_priority c5input (by decide)).1,
   (both_queues_decision_priority c5input (by decide)).2.1⟩

/-- The membership test over the filtered per-turn action log, unfolded to
its spec-level reading: some log entry of the local player at the snapshot's
current turn has the given kind. -/
lemma turn_usage_any (p : GameRoomInput) (uid : Int) (gs : GameState)
    (hu : p.currentUserId = some uid) (hg : p.currentGameState = some gs)
    (ht : gs.turnNumber ≠ 0) (kind : String) :
    (myTurnActions p).any (fun a => a.actionType == kind) = true ↔
      ∃ a, a ∈ gs.recentActions ∧ a.userId = uid ∧
        a.turnNumber = gs.turnNumber ∧ a.actionType = kind := by
  unfold myTurnActions recentActionsOf
  rw [hu, hg]
  simp [ht, List.any_eq_true, List.mem_filter, and_assoc]

/-- C7 (amended): provided the snapshot turn number is non-zero,
`hasUsedTurnDraw` (resp. `hasUsedTurnCheer`) is true exactly when the
recent-action log contains an entry of the local player at the snapshot's
current turn with kind DRAW_TURN (resp. TURN_CHEER); in particular the flag
holds at turn 3 with a turn-3 DRAW_TURN entry and is dropped when the turn
advances to 4 with no new entries.  (When the turn number is zero the code
short-circuits the derivation to false regardless of the log.) -/
theorem turn_usage_derivation :
    (∀ (p : GameRoomInput) (uid : Int) (gs : GameState),
      p.currentUserId = some uid → p.currentGameState = some gs →
      gs.turnNumber ≠ 0 →
      (hasUsedTurnDraw p = true ↔
        ∃ a, a ∈ gs.recentActions ∧ a.userId = uid ∧
          a.turnNumber = gs.turnNumber ∧ a.actionType = "DRAW_TURN") ∧
      (hasUsedTurnCheer p = true ↔
        ∃ a, a ∈ gs.recentActions ∧ a.userId = uid ∧
          a.turnNumber = gs.turnNumber ∧ a.actionType = "TURN_CHEER")) := by
  intro p uid gs hu hg ht
  exact ⟨turn_usage_any p uid gs hu hg ht "DRAW_TURN",
    turn_usage_any p uid gs hu hg ht "TURN_CHEER"⟩

/-- A snapshot at turn 3 whose log holds one DRAW_TURN entry of player 1 at
turn 3. -/
def c7gs3 : GameState :=
  { status := "STARTED", turnNumber := 3, players := [],
    pendingDecisions := [], pendingInteractions := [],
    recentActions := [{ userId := 1, actionType := "DRAW_TURN", turnNumber := 3 }] }

/-- The same snapshot after the turn advanced to 4 with no new entries. -/
def c7gs4 : GameState :=
  { c7gs3 with turnNumber := 4 }

/-- Game-room state of player 1 over the turn-3 snapshot. -/
def c7input3 : GameRoomInput :=
  { currentMatch := { status := "STARTED", currentTurnPlayerId := some 1 },
    currentGameState := some c7gs3,
    currentUserId := some 1,
    busy := false,
    cardInfoById := fun _ => none }

/-- Game-room state of player 1 over the turn-4 snapshot. -/
def c7input4 : GameRoomInput :=
  { c7input3 with currentGameState := some c7gs4 }

/-- C7 witness: the amended derivation applied at the turn-3 snapshot, and
the flag dropping at turn 4. -/
theorem turn_usage_derivation_witness :
    hasUsedTurnDraw c7input3 = true ∧ hasUsedTurnDraw c7input4 = false :=
  ⟨(turn_usage_derivation c7input3 1 c7gs3 rfl rfl (by decide)).1.mpr
      ⟨{ userId := 1, actionType := "DRAW_TURN", turnNumber := 3 },
        by decide, rfl, rfl, rfl⟩,
   by decide⟩

/-- A snapshot whose turn counter is zero while its log holds a matching
turn-zero DRAW_TURN entry of the local player. -/
def c7gs0 : GameState :=
  { status := "STARTED", turnNumber := 0, players := [],
    pendingDecisions := [], pendingInteractions := [],
    recentActions := [{ userId := 1, actionType := "DRAW_TURN", turnNumber := 0 }] }

/-- Game-room state of player 1 over the turn-zero snapshot. -/
def c7input0 : GameRoomInput :=
  { currentMatch := { status := "STARTED", currentTurnPlayerId := some 1 },
    currentGameState := some c7gs0,
    currentUserId := some 1,
    busy := false,
    cardInfoById := fun _ => none }

/-- C7 counterexample: at snapshot turn number 0 the log does contain an
entry with actor = local player, turn number = snapshot turn number and
kind DRAW_TURN, yet `hasUsedTurnDraw` is false — the claimed
"exactly when" fails because the code short-circuits on a falsy turn
counter. -/
theorem turn_usage_zero_turn_flag_dropped :
    (∃ a, a ∈ c7gs0.recentActions ∧ a.userId = 1 ∧
      a.turnNumber = c7gs0.turnNumber ∧ a.actionType = "DRAW_TURN") ∧
    c7input0.currentUserId = some 1 ∧
    c7input0.currentGameState = some c7gs0 ∧
    hasUsedTurnDraw c7input0 = false := by
  refine ⟨⟨{ userId := 1, actionType := "DRAW_TURN", turnNumber := 0 },
    by decide, rfl, rfl, rfl⟩, rfl, rfl, by decide⟩

/-- C6: end-turn is refused locally with the itemized missing-action list
unless the turn draw has been used and send-cheer is used or ineligible;
once those hold it dispatches; the missing list itemizes exactly the
missing mandatory actions, and cheer eligibility is cheer-deck non-empty
plus at least one holomem on stage. -/
theorem end_turn_mandatory_actions (p : GameRoomInput)
    (hb : p.busy = false) (ht : isMyTurn p = true) :
    (handleEndTurnClick p = .dispatched ↔
      hasUsedTurnDraw p = true ∧
        (canPerformTurnCheer p = true → hasUsedTurnCheer p = true)) ∧
    (endTurnMissing p ≠ [] → handleEndTurnClick p = .blocked (endTurnMissing p)) ∧
    ("抽卡" ∈ endTurnMissing p ↔ hasUsedTurnDraw p = false) ∧
    ("發送吶喊" ∈ endTurnMissing p ↔
      canPerformTurnCheer p = true ∧ hasUsedTurnCheer p = false) ∧
    (canPerformTurnCheer p = true ↔
      0 < ((myState p).map (fun st => st.cheerDeckCount)).getD 0 ∧
        myHolomems p ≠ []) := by
  refine ⟨?_, ?_, ?_, ?_, ?_⟩
  · unfold handleEndTurnClick endTurnMissing
    cases hD : hasUsedTurnDraw p <;> cases hC : canPerformTurnCheer p <;>
      cases hTC : hasUsedTurnCheer p <;> simp [hb, ht, hD, hC, hTC]
  · intro hne
    unfold handleEndTurnClick
    have hlen : 0 < (endTurnMissing p).length := List.length_pos.mpr hne
    simp [hb, ht, hlen]
  · unfold endTurnMissing
    cases hD : hasUsedTurnDraw p <;> cases hC : canPerformTurnCheer p <;>
      cases hTC : hasUsedTurnCheer p <;> simp [hD, hC, hTC]
  · unfold endTurnMissing
    cases hD : hasUsedTurnDraw p <;> cases hC : canPerformTurnCheer p <;>
      cases hTC : hasUsedTurnCheer p <;> simp [hD, hC, hTC]
  · unfold canPerformTurnCheer
    simp [List.length_pos]

/-- Player 1's snapshot state with a cheer deck and one staged holomem. -/
def c6me : PlayerZoneState :=
  { userId := 1, handCards := [],
    boardZones := [{ zone := "BACK", cards := [{ cardInstanceId := 31, cardId := "m1", zone := "BACK" }] }],
    cheerDeckCount := 4 }

/-- A snapshot where player 1 has drawn this turn, has a cheer deck and a
staged holomem, but has not sent the turn cheer. -/
def c6gs : GameState :=
  { status := "STARTED", turnNumber := 2,
    players := [c6me],
    pendingDecisions := [], pendingInteractions := [],
    recentActions := [{ userId := 1, actionType := "DRAW_TURN", turnNumber := 2 }] }

/-- Game-room state of player 1 over that snapshot, on their own turn. -/
def c6input : GameRoomInput :=
  { currentMatch := { status := "STARTED", currentTurnPlayerId := some 1 },
    currentGameState := some c6gs,
    currentUserId := some 1,
    busy := false,
    cardInfoById := fun _ => none }

/-- The turn-cheer log entry of player 1 at turn 2. -/
def c6cheerEntry : RecentMatchAction :=
  { userId := 1, actionType := "TURN_CHEER", turnNumber := 2 }

/-- The snapshot after the turn cheer has also been used. -/
def c6gsDone : GameState :=
  { c6gs with recentActions := c6cheerEntry :: c6gs.recentActions }

/-- The same state after the turn cheer has also been used. -/
def c6inputDone : GameRoomInput :=
  { c6input with currentGameState := some c6gsDone }

/-- C6 witness: cheer-eligible-but-unused is refused listing exactly
「發送吶喊」, and after sending the cheer the end-turn dispatches. -/
theorem end_turn_mandatory_actions_witness :
    handleEndTurnClick c6input = .blocked ["發送吶喊"] ∧
    handleEndTurnClick c6inputDone = .dispatched :=
  ⟨((end_turn_mandatory_actions c6input (by decide) (by decide)).2.1
      (by decide)).trans (by decide),
   (end_turn_mandatory_actions c6inputDone (by decide) (by decide)).1.mpr
     ⟨by decide, fun _ => by decide⟩⟩

/-- C8: the play-to-stage action is offered exactly for MEMBER cards of a
stageable rank tier (DEBUT or SPOT); when the gate is otherwise open it is
refused locally — the availability verdict carries the back-row-full reason
and no request draft is built — exactly when the back row already holds the
maximum of five cards. -/
theorem play_to_stage_gating (p : GameRoomInput) (card : ZoneCardInstance) :
    (resolveDefaultHandAction p card = some .PLAY_TO_STAGE ↔
      cardTypeOf p card = "MEMBER" ∧
        (cardLevelUpper p card = "DEBUT" ∨ cardLevelUpper p card = "SPOT")) ∧
    (resolveGlobalActionBlockReason p = none →
      resolveDefaultHandAction p card = some .PLAY_TO_STAGE →
      (5 ≤ (myBackHolomems p).length →
        resolveHandActionAvailability p card =
          { kind := some .PLAY_TO_STAGE, selectable := false,
            reason := some backFullMsg, bloomOptions := none } ∧
        openHandAction p card = none) ∧
      ((myBackHolomems p).length < 5 →
        resolveHandActionAvailability p card =
          { kind := some .PLAY_TO_STAGE, selectable := true, reason := none,
            bloomOptions := none })) := by
  constructor
  · unfold resolveDefaultHandAction
    by_cases hT : cardTypeOf p card = "MEMBER"
    · by_cases h1 : cardLevelUpper p card = "FIRST"
      · simp [hT, h1]
      · by_cases h2 : cardLevelUpper p card = "SECOND"
        · simp [hT, h2]
        · by_cases h3 : cardLevelUpper p card = "BUZZ"
          · simp [hT, h1, h2, h3]
          · by_cases h4 : cardLevelUpper p card = "DEBUT"
            · simp [hT, h1, h2, h3, h4]
            · by_cases h5 : cardLevelUpper p card = "SPOT"
              · simp [hT, h1, h2, h3, h4, h5]
              · simp [hT, h1, h2, h3, h4, h5]
    · by_cases hS : cardTypeOf p card = "SUPPORT"
      · simp [hT, hS]
      · by_cases hC : cardTypeOf p card = "CHEER"
        · simp [hT, hS, hC]
        · simp [hT, hS, hC]
  · intro hr hk
    constructor
    · intro h5
      have hav : resolveHandActionAvailability p card =
          { kind := some .PLAY_TO_STAGE, selectable := false,
            reason := some backFullMsg, bloomOptions := none } := by
        unfold resolveHandActionAvailability
        simp [hk, hr, h5]
      refine ⟨hav, ?_⟩
      simp [openHandAction, hav]
    · intro h5
      have h5' : ¬ 5 ≤ (myBackHolomems p).length := by omega
      unfold resolveHandActionAvailability
      simp [hk, hr, h5']

/-- Catalog for the C8 scenario: one DEBUT member template. -/
def c8info : String → Option CardVisualExt := fun id =>
  if id == "d1" then some { name := "D", cardType := "MEMBER", levelType := some "DEBUT" }
  else none

/-- A back-row card used to fill the row. -/
def c8backCard (n : Int) : ZoneCardInstance :=
  { cardInstanceId := n, cardId := "d1", zone := "BACK" }

/-- Player 1's state with a full (five-card) back row. -/
def c8meFull : PlayerZoneState :=
  { userId := 1, handCards := [{ cardInstanceId := 50, cardId := "d1", zone := "HAND" }],
    boardZones := [{ zone := "BACK", cards := [c8backCard 41, c8backCard 42, c8backCard 43, c8backCard 44, c8backCard 45] }],
    cheerDeckCount := 0 }

/-- Player 1's state with one free back-row slot. -/
def c8meFree : PlayerZoneState :=
  { userId := 1, handCards := [{ cardInstanceId := 50, cardId := "d1", zone := "HAND" }],
    boardZones := [{ zone := "BACK", cards := [c8backCard 41] }],
    cheerDeckCount := 0 }

/-- Snapshot with the full back row. -/
def c8gsFull : GameState :=
  { status := "STARTED", turnNumber := 1, players := [c8meFull],
    pendingDecisions := [], pendingInteractions := [], recentActions := [] }

/-- Snapshot with the free back row. -/
def c8gsFree : GameState :=
  { status := "STARTED", turnNumber := 1, players := [c8meFree],
    pendingDecisions := [], pendingInteractions := [], recentActions := [] }

/-- Game-room state over the full back row, gate otherwise open. -/
def c8inputFull : GameRoomInput :=
  { currentMatch := { status := "STARTED", currentTurnPlayerId := some 1 },
    currentGameState := some c8gsFull,
    currentUserId := some 1,
    busy := false,
    cardInfoById := c8info }

/-- Game-room state over the free back row, gate otherwise open. -/
def c8inputFree : GameRoomInput :=
  { c8inputFull with currentGameState := some c8gsFree }

/-- The DEBUT member hand card of the C8 scenario. -/
def c8handCard : ZoneCardInstance :=
  { cardInstanceId := 50, cardId := "d1", zone := "HAND" }

/-- C8 witness: with the back row full the verdict is the back-row-full
refusal and no draft is built; with a free slot the action is selectable. -/
theorem play_to_stage_gating_witness :
    (resolveHandActionAvailability c8inputFull c8handCard =
      { kind := some .PLAY_TO_STAGE, selectable := false,
        reason := some backFullMsg, bloomOptions := none } ∧
      openHandAction c8inputFull c8handCard = none) ∧
    resolveHandActionAvailability c8inputFree c8handCard =
      { kind := some .PLAY_TO_STAGE, selectable := true, reason := none,
        bloomOptions := none } :=
  ⟨((play_to_stage_gating c8inputFull c8handCard).2 (by decide) (by decide)).1
      (by decide),
   ((play_to_stage_gating c8inputFree c8handCard).2 (by decide) (by decide)).2
      (by decide)⟩

/-- The empty level string has no rank. -/
lemma levelRank_of_empty : levelRank (some "") = -1 := by decide

/-- The SPOT tier has no rank (it is the non-bloomable tier). -/
lemma levelRank_of_spot : levelRank (some "SPOT") = -1 := by decide

/-- The verdict's target is the judged card. -/
lemma bloomTargetVerdict_target (p : GameRoomInput) (bc t : ZoneCardInstance) :
    (bloomTargetVerdict p bc t).target = t := rfl

/-- For a bloom card with a non-empty trimmed name and rank at least one,
the per-target reason is absent exactly when the names match and the
target's rank is exactly one below the bloom card's rank. -/
lemma bloomTargetReason_none_iff (p : GameRoomInput) (bc t : ZoneCardInstance)
    (hname : cardDisplayName p bc ≠ "")
    (hrank : 1 ≤ cardRank p bc) :
    bloomTargetReason p bc t = none ↔
      cardDisplayName p t = cardDisplayName p bc ∧
        cardRank p t + 1 = cardRank p bc := by
  unfold cardRank at hrank
  have hbl : cardLevelUpper p bc ≠ "" := by
    intro h
    rw [h, levelRank_of_empty] at hrank
    exact absurd hrank (by decide)
  have hr0 : ¬ levelRank (some (cardLevelUpper p bc)) ≤ 0 := by omega
  unfold bloomTargetReason cardRank
  simp only []
  split_ifs with h1 h2 h3 h4 h5
  · simp [hname, hbl, hr0] at h1
  · simp only [Bool.or_eq_true, beq_iff_eq, decide_eq_true_eq] at h2
    refine iff_of_false (by simp) ?_
    rintro ⟨e1, e2⟩
    cases h2 with
    | inl h' =>
      cases h' with
      | inl h => exact hname (e1.symm.trans h)
      | inr h =>
        rw [h, levelRank_of_empty] at e2
        omega
    | inr h => omega
  · simp only [Bool.or_eq_true, beq_iff_eq, decide_eq_true_eq, not_or] at h2
    obtain ⟨⟨hta, htb⟩, htc⟩ := h2
    simp only [beq_iff_eq] at h3
    rw [h3, levelRank_of_spot] at htc
    exact absurd (by decide : (-1 : Int) < 0) htc
  · simp only [bne_iff_ne, ne_eq] at h4
    refine iff_of_false (by simp) ?_
    rintro ⟨e1, _⟩
    exact h4 e1
  · simp only [bne_iff_ne, ne_eq] at h5
    refine iff_of_false (by simp) ?_
    rintro ⟨_, e2⟩
    exact h5 e2
  · simp only [bne_iff_ne, ne_eq, not_not] at h4 h5
    exact iff_of_true rfl ⟨h4, h5⟩

/-- The Bool-level form of the per-target characterization, matching the
claim's wording (same name, rank one below, not SPOT, rank present). -/
lemma bloomTargetVerdict_selectable_eq (p : GameRoomInput) (bc t : ZoneCardInstance)
    (hname : cardDisplayName p bc ≠ "")
    (hrank : 1 ≤ cardRank p bc) :
    (bloomTargetVerdict p bc t).selectable =
      ((cardDisplayName p t == cardDisplayName p bc) &&
       (cardRank p t + 1 == cardRank p bc) &&
       (cardLevelUpper p t != "SPOT") &&
       decide (0 ≤ cardRank p t)) := by
  rw [Bool.eq_iff_iff]
  have hsel : (bloomTargetVerdict p bc t).selectable = true ↔
      bloomTargetReason p bc t = none := by
    show (bloomTargetReason p bc t).isNone = true ↔ _
    cases bloomTargetReason p bc t <;> simp
  rw [hsel, bloomTargetReason_none_iff p bc t hname hrank]
  simp only [Bool.and_eq_true, beq_iff_eq, bne_iff_ne, ne_eq, decide_eq_true_eq]
  constructor
  · rintro ⟨e1, e2⟩
    have ht0 : 0 ≤ cardRank p t := by omega
    have hts : ¬ cardLevelUpper p t = "SPOT" := by
      intro hS
      have : cardRank p t = -1 := by
        unfold cardRank
        rw [hS, levelRank_of_spot]
      omega
    exact ⟨⟨⟨e1, e2⟩, hts⟩, ht0⟩
  · rintro ⟨⟨⟨e1, e2⟩, _⟩, _⟩
    exact ⟨e1, e2⟩

/-- Catalog for the C4 example: bloom card X at rank 2 (SECOND), field
templates X rank 1, Y rank 1, X rank 2. -/
def c4info : String → Option CardVisualExt := fun id =>
  if id == "hX2" then some { name := "X", cardType := "MEMBER", levelType := some "SECOND" }
  else if id == "fX1" then some { name := "X", cardType := "MEMBER", levelType := some "FIRST" }
  else if id == "fY1" then some { name := "Y", cardType := "MEMBER", levelType := some "FIRST" }
  else if id == "fX2" then some { name := "X", cardType := "MEMBER", levelType := some "SECOND" }
  else none

/-- Player 1's field for the C4 example: [X rank 1, Y rank 1, X rank 2] in
the back row, the bloom card X rank 2 in hand. -/
def c4me : PlayerZoneState :=
  { userId := 1,
    handCards := [{ cardInstanceId := 10, cardId := "hX2", zone := "HAND" }],
    boardZones := [{ zone := "BACK", cards := [{ cardInstanceId := 11, cardId := "fX1", zone := "BACK" }, { cardInstanceId := 12, cardId := "fY1", zone := "BACK" }, { cardInstanceId := 13, cardId := "fX2", zone := "BACK" }] }],
    cheerDeckCount := 0 }

/-- Snapshot for the C4 example. -/
def c4gs : GameState :=
  { status := "STARTED", turnNumber := 1, players := [c4me],
    pendingDecisions := [], pendingInteractions := [], recentActions := [] }

/-- Game-room state for the C4 example. -/
def c4input : GameRoomInput :=
  { currentMatch := { status := "STARTED", currentTurnPlayerId := some 1 },
    currentGameState := some c4gs,
    currentUserId := some 1,
    busy := false,
    cardInfoById := c4info }

/-- The bloom hand card (X at rank 2) of the C4 example. -/
def c4bloomCard : ZoneCardInstance :=
  { cardInstanceId := 10, cardId := "hX2", zone := "HAND" }

/-- C4: for a bloom card with usable name and rank information, the
selectable bloom targets are exactly the on-field units with the same name
whose rank is exactly one level below, the SPOT tier and rank-less units
being excluded; on the concrete example (bloom card X at rank 2 over the
field [X rank 1, Y rank 1, X rank 2]) the eligible-target set is exactly
[X rank 1]. -/
theorem bloom_target_eligibility :
    (∀ (p : GameRoomInput) (bloomCard : ZoneCardInstance),
      cardDisplayName p bloomCard ≠ "" → 1 ≤ cardRank p bloomCard →
      ((resolveBloomTargetOptions p bloomCard).filter
          (fun o => o.selectable)).map (fun o => o.target) =
        (myHolomems p).filter (fun t =>
          (cardDisplayName p t == cardDisplayName p bloomCard) &&
          (cardRank p t + 1 == cardRank p bloomCard) &&
          (cardLevelUpper p t != "SPOT") &&
          decide (0 ≤ cardRank p t))) ∧
    ((resolveBloomTargetOptions c4input c4bloomCard).filter
        (fun o => o.selectable)).map (fun o => o.target) =
      [{ cardInstanceId := 11, cardId := "fX1", zone := "BACK" }] := by
  constructor
  · intro p bc hname hrank
    unfold resolveBloomTargetOptions
    generalize myHolomems p = l
    induction l with
    | nil => rfl
    | cons a l ih =>
      rw [List.map_cons, List.filter_cons, List.filter_cons,
        bloomTargetVerdict_selectable_eq p bc a hname hrank]
      cases h : ((cardDisplayName p a == cardDisplayName p bc) &&
          (cardRank p a + 1 == cardRank p bc) &&
          (cardLevelUpper p a != "SPOT") &&
          decide (0 ≤ cardRank p a)) with
      | true => simp [ih, bloomTargetVerdict_target]
      | false => simp [ih]
  · decide

/-- C4 witness: the characterization applied at the concrete example. -/
theorem bloom_target_eligibility_witness :
    ((resolveBloomTargetOptions c4input c4bloomCard).filter
        (fun o => o.selectable)).map (fun o => o.target) =
      (myHolomems c4input).filter (fun t =>
        (cardDisplayName c4input t == cardDisplayName c4input c4bloomCard) &&
        (cardRank c4input t + 1 == cardRank c4input c4bloomCard) &&
        (cardLevelUpper c4input t != "SPOT") &&
        decide (0 ≤ cardRank c4input t)) :=
  bloom_target_eligibility.1 c4input c4bloomCard (by decide) (by decide)

end HoloClient
